import Mathlib

/-!
Verification of the bodysim anatomical-model core against its specification.

The Python source under `body_simulator/src` is shallowly embedded here:

* `human_body.py` (`Organ`, `HumanBody`): the anatomical tree, mesh loading,
  quadric-decimation simplification, voxelization, and the JSON
  serialization contract (`to_dict` / `from_dict`, `save_to_file` /
  `load_from_file`).
* `utils/dicom_utils.py`: `load_dicom_volume` (slice assembly) and
  `volume_to_mesh` (iso-surface extraction).
* `utils/mesh_utils.py`: `voxelize_mesh` (occupancy-grid rasterization).

External library calls (trimesh load/process/decimation/voxelization,
skimage marching cubes, the filesystem) are modelled as explicit function
parameters ("environments"); their documented contracts appear as
hypotheses of the theorems that need them.  Python floats are modelled as
exact rationals: no operation in the embedded code performs arithmetic on
them beyond identity copies, so this does not change any observable
control flow.  Python dicts are modelled as insertion-ordered association
lists whose update-in-place semantics is mirrored exactly.
-/

/-- Fixed six-field physical property record of an `Organ`
(`human_body.py` lines 22-27). -/
structure OrganProps where
  magnetic_susceptibility : ℚ
  permeability : ℚ
  permittivity : ℚ
  conductivity : ℚ
  elasticity : ℚ
  density : ℚ
deriving DecidableEq, Repr

/-- Defaults from `Organ.__init__`: 0.0, 1.0, 1.0, 0.0, 0.0, 1000. -/
def OrganProps.default : OrganProps :=
  ⟨0, 1, 1, 0, 0, 1000⟩

/-- A triangle mesh as trimesh holds it: a vertex list and a face list of
vertex-index triples. -/
structure Mesh where
  vertices : List (ℚ × ℚ × ℚ)
  faces : List (Nat × Nat × Nat)
deriving DecidableEq, Repr

/-- Model of `trimesh.Trimesh.is_empty`: true exactly when no data at all is
defined on the mesh (its docstring: "If True, no data is defined on the
mesh"), i.e. both the vertex and the face store are empty.  In particular a
mesh with vertices but zero faces is NOT empty in this sense. -/
def Mesh.is_empty (m : Mesh) : Bool :=
  m.vertices.isEmpty && m.faces.isEmpty

/-- A 3-D boolean occupancy grid (`numpy` array of booleans). -/
abbrev VoxMatrix := List (List (List Bool))

/-! ### JSON values

`save_to_file` writes `json.dump` output and `load_from_file` reads it back
through `json.load`; `from_dict` receives arbitrary parsed JSON.  The type
is given mutually with its list/object spines so that all decoders below
are structurally recursive (and hence kernel-evaluable). -/

mutual
inductive Json where
  | null : Json
  | bool (b : Bool) : Json
  | num (q : ℚ) : Json
  | str (s : String) : Json
  | arr (elems : JsonList) : Json
  | obj (entries : JsonObj) : Json

inductive JsonList where
  | nil : JsonList
  | cons (head : Json) (tail : JsonList) : JsonList

inductive JsonObj where
  | nil : JsonObj
  | cons (key : String) (val : Json) (rest : JsonObj) : JsonObj
end

/-- First-occurrence key lookup, the Python `dict[k]` / `dict.get(k)` of a
parsed-JSON object (parsed dicts never carry duplicate keys). -/
def JsonObj.find? (k : String) : JsonObj → Option Json
  | .nil => none
  | .cons key v rest => if key = k then some v else JsonObj.find? k rest

/-- Whether a JSON value is a mapping — the `isinstance(data, dict)` checks
of `from_dict` and `load_from_file`. -/
def Json.isObj : Json → Bool
  | .obj _ => true
  | _ => false

/-- Model of Python `float(x)` on a parsed-JSON value: numbers convert to
themselves, booleans to 0/1, everything else raises (`none`).  (Numeric
strings, which Python would also convert, do not occur in any record this
development evaluates and are modelled as raising.) -/
def pyFloat : Json → Option ℚ
  | .num q => some q
  | .bool b => some (if b then 1 else 0)
  | _ => none

/-- Model of `float(d.get(k, default))`: a missing key falls back to the
(float) default, a present one must convert. -/
def pyFloatD (j : Option Json) (d : ℚ) : Option ℚ :=
  match j with
  | none => some d
  | some v => pyFloat v

/-! ### The Organ / HumanBody data model

`Organ` (`human_body.py` lines 13-34) carries a name, an optional mesh-file
path, an optional loaded mesh, a voxel resolution, the six physical
properties, an optional voxel grid and an insertion-ordered mapping from
name to sub-organ.  The mapping is given as its own inductive spine so
that all functions over the tree are structurally recursive. -/

mutual
inductive Organ where
  | mk (name : String) (mesh_file : Option String) (mesh : Option Mesh)
      (voxel_resolution : ℚ) (props : OrganProps)
      (voxel_grid : Option VoxMatrix) (sub_organs : OrganMap) : Organ

inductive OrganMap where
  | nil : OrganMap
  | cons (key : String) (organ : Organ) (rest : OrganMap) : OrganMap
end

def Organ.name : Organ → String
  | .mk n _ _ _ _ _ _ => n

def Organ.mesh_file : Organ → Option String
  | .mk _ mf _ _ _ _ _ => mf

def Organ.mesh : Organ → Option Mesh
  | .mk _ _ m _ _ _ _ => m

def Organ.voxel_resolution : Organ → ℚ
  | .mk _ _ _ vr _ _ _ => vr

def Organ.props : Organ → OrganProps
  | .mk _ _ _ _ pr _ _ => pr

def Organ.voxel_grid : Organ → Option VoxMatrix
  | .mk _ _ _ _ _ vg _ => vg

def Organ.sub_organs : Organ → OrganMap
  | .mk _ _ _ _ _ _ s => s

def Organ.withMesh (m : Option Mesh) : Organ → Organ
  | .mk n mf _ vr pr vg s => .mk n mf m vr pr vg s

def Organ.withMeshFile (mf : Option String) : Organ → Organ
  | .mk n _ m vr pr vg s => .mk n mf m vr pr vg s

def Organ.withVoxelGrid (vg : Option VoxMatrix) : Organ → Organ
  | .mk n mf m vr pr _ s => .mk n mf m vr pr vg s

/-- Number of faces of the organ's current mesh (0 when no mesh). -/
def Organ.faceCount (o : Organ) : Nat :=
  match o.mesh with
  | none => 0
  | some m => m.faces.length

/-- Whether the mapping already holds `k` as a key. -/
def OrganMap.hasKey (k : String) : OrganMap → Bool
  | .nil => false
  | .cons key _ rest => key = k || OrganMap.hasKey k rest

/-- Python `d[k] = v`: overwrite in place when the key exists (its position
is preserved), append otherwise. -/
def OrganMap.insertKey (k : String) (o : Organ) : OrganMap → OrganMap
  | .nil => .cons k o .nil
  | .cons key v rest =>
      if key = k then .cons key o rest
      else .cons key v (OrganMap.insertKey k o rest)

/-- Lookup by key (first occurrence; Python dicts have unique keys). -/
def OrganMap.find? (k : String) : OrganMap → Option Organ
  | .nil => none
  | .cons key v rest => if key = k then some v else OrganMap.find? k rest

/-- `Organ.add_sub_organ` (`human_body.py` lines 96-97): keyed by the
child's own name, last write wins. -/
def Organ.add_sub_organ (child : Organ) : Organ → Organ
  | .mk n mf m vr pr vg s => .mk n mf m vr pr vg (s.insertKey child.name child)

/-! ### Mesh loading (`Organ.load_mesh`, lines 36-94)

The filesystem and trimesh are the environment.  `trimesh.load` may raise,
return a non-mesh non-scene object (e.g. a `PointCloud`), a `Trimesh`, or a
`Scene`; a scene either has no geometry, or is consolidated by
`dump(concatenate=True)`, which may itself raise or return a non-`Trimesh`.
`Trimesh.process()` may raise or return an invalid object (both leave the
organ's mesh `none`, so they are merged into the `none` result of
`MeshEnv.process`). -/

inductive DumpResult where
  | raises : DumpResult
  | notTrimesh : DumpResult
  | mesh (m : Mesh) : DumpResult
deriving Repr

inductive LoadResult where
  | raises : LoadResult
  | notMeshNotScene : LoadResult
  | mesh (m : Mesh) : LoadResult
  | scene (hasGeometry : Bool) (dump : DumpResult) : LoadResult
deriving Repr

structure MeshEnv where
  isFile : String → Bool
  load : String → LoadResult
  process : Mesh → Option Mesh

/-- Shared tail of `load_mesh`: the candidate passed the `Trimesh`
instance check; reject empty candidates, process, reject invalid or empty
processed results, otherwise commit the processed mesh. -/
def Organ.loadTail (env : MeshEnv) (o : Organ) (c : Mesh) : Organ :=
  if c.is_empty then o
  else
    match env.process c with
    | none => o
    | some p => if p.is_empty then o else o.withMesh (some p)

/-- `Organ.load_mesh`: records the path and clears the mesh up front, then
walks the load / consolidate / validate / process chain; every failure path
returns with the mesh still `none`. -/
def Organ.load_mesh (env : MeshEnv) (o : Organ) (f : String) : Organ :=
  let o := (o.withMeshFile (some f)).withMesh none
  if ¬ env.isFile f then o
  else
    match env.load f with
    | .raises => o
    | .notMeshNotScene => o
    | .mesh c => o.loadTail env c
    | .scene hasGeom d =>
        if ¬ hasGeom then o
        else
          match d with
          | .raises => o
          | .notTrimesh => o
          | .mesh c => o.loadTail env c

/-- The mesh `load_mesh` ends with, as a function of the environment and
path only (the code clears the previous mesh before doing anything). -/
def loadOutcome (env : MeshEnv) (f : String) : Option Mesh :=
  if ¬ env.isFile f then none
  else
    match env.load f with
    | .raises => none
    | .notMeshNotScene => none
    | .mesh c => loadOutcomeTail env c
    | .scene hasGeom d =>
        if ¬ hasGeom then none
        else
          match d with
          | .raises => none
          | .notTrimesh => none
          | .mesh c => loadOutcomeTail env c
where
  loadOutcomeTail (env : MeshEnv) (c : Mesh) : Option Mesh :=
    if c.is_empty then none
    else
      match env.process c with
      | none => none
      | some p => if p.is_empty then none else some p

/-- `Organ.__init__` (lines 14-34): default fields, then `load_mesh` when a
truthy (non-empty) mesh-file string was supplied. -/
def Organ.new (env : MeshEnv) (name : String) (mesh_file : Option String) : Organ :=
  let base : Organ := .mk name mesh_file none 1 OrganProps.default none .nil
  match mesh_file with
  | some f => if f = "" then base else base.load_mesh env f
  | none => base

/-- `Organ.interpolate_properties` (lines 162-183): a pure accessor
returning the six properties; the spatial-point argument is ignored and
`float()` on a rational is the identity. -/
def Organ.interpolate_properties (o : Organ) : OrganProps :=
  o.props

/-! ### Mesh simplification (`Organ.simplify_mesh`, lines 126-160)

`trimesh.Trimesh.simplify_quadric_decimation(face_count=t)` is the
environment: it may raise or return `None` (both modelled as `none`) or
return a new mesh.  The Python argument may be a non-integer value, which
the `isinstance(target_face_count, int)` validation rejects; it is modelled
as `Option Int` with `none` for any non-integer. -/

def Organ.simplify_mesh (decimate : Mesh → Int → Option Mesh)
    (o : Organ) (target_face_count : Option Int) : Organ × Bool :=
  match o.mesh with
  | none => (o, false)
  | some m =>
    if m.is_empty then (o, false)
    else
      match target_face_count with
      | none => (o, false)
      | some t =>
        if t ≤ 0 then (o, false)
        else
          if (m.faces.length : Int) ≤ t then (o, true)
          else
            match decimate m t with
            | none => (o, false)
            | some sm =>
                if sm.is_empty then (o, false)
                else (o.withMesh (some sm), true)

/-! ### Voxelization

`utils/mesh_utils.py` lines 7-47: validate the input object and the pitch,
then return `mesh.voxelized(pitch).matrix.astype(bool)`; any exception
yields `None`.  The trimesh surface voxelizer is the environment
(`voxelized`, returning `none` on an exception).  Note the source never
calls `.fill()` on the voxel grid and never runs a `fill_holes` repair
pass.  The first argument is `none` when the caller passed something that
is not a `trimesh.Trimesh`. -/

def MeshUtils.voxelize_mesh (voxelized : Mesh → ℚ → Option VoxMatrix)
    (mesh : Option Mesh) (pitch : ℚ) : Option VoxMatrix :=
  match mesh with
  | none => none
  | some m =>
    if m.is_empty then none
    else
      if pitch ≤ 0 then none
      else voxelized m pitch

/-- `Organ.voxelize_mesh` (`human_body.py` lines 103-124): with no mesh it
warns and sets `self.voxel_grid = None`; otherwise it stores the utility's
result (which is `None` on failure or exception). -/
def Organ.voxelize_mesh (voxelized : Mesh → ℚ → Option VoxMatrix)
    (o : Organ) : Organ :=
  match o.mesh with
  | none => o.withVoxelGrid none
  | some m =>
      o.withVoxelGrid (MeshUtils.voxelize_mesh voxelized (some m) o.voxel_resolution)

/-! ### Serialization (`to_dict` / `from_dict`, lines 201-231)

`to_dict` emits the nested record `{name, mesh_file, voxel_resolution,
properties, sub_organs}`.  `from_dict` reads it back: `data["name"]` raises
(`none`) when missing, properties and voxel resolution convert through
`float()`, and each sub-organ entry is recursed into when it is a dict and
skipped with a warning otherwise; an inner exception propagates. -/

/-- `None` serializes to JSON null, a path to a string. -/
def optStrJson : Option String → Json
  | none => .null
  | some f => .str f

/-- The `properties` sub-record `interpolate_properties` provides. -/
def propsJson (pr : OrganProps) : Json :=
  .obj (.cons "magnetic_susceptibility" (.num pr.magnetic_susceptibility)
    (.cons "permeability" (.num pr.permeability)
      (.cons "permittivity" (.num pr.permittivity)
        (.cons "conductivity" (.num pr.conductivity)
          (.cons "elasticity" (.num pr.elasticity)
            (.cons "density" (.num pr.density) .nil))))))

mutual
def Organ.to_dict : Organ → Json
  | .mk n mf _ vr pr _ subs =>
      .obj (.cons "name" (.str n)
        (.cons "mesh_file" (optStrJson mf)
          (.cons "voxel_resolution" (.num vr)
            (.cons "properties" (propsJson pr)
              (.cons "sub_organs" (.obj (OrganMap.to_dicts subs)) .nil)))))

def OrganMap.to_dicts : OrganMap → JsonObj
  | .nil => .nil
  | .cons k o rest => .cons k o.to_dict (OrganMap.to_dicts rest)
end

/-- The five fields `from_dict` reads out of its input record, with the
sub-organ mapping already decoded.  `subs?` distinguishes a missing
`sub_organs` key (empty default) from a present one whose processing
raised (`some none`) or succeeded (`some (some _)`). -/
structure RawFields where
  name? : Option Json
  meshFile? : Option Json
  props? : Option Json
  voxelRes? : Option Json
  subs? : Option (Option OrganMap)

mutual
/-- `Organ.from_dict` on a parsed-JSON value; `none` models an escaping
exception (`KeyError` from `data["name"]`, `ValueError`/`TypeError` from
`float`, `AttributeError` from `.get`/`.items()` on a non-dict). -/
def Organ.from_dict (env : MeshEnv) : Json → Option Organ
  | .obj kvs =>
      let r := JsonObj.scanFields env kvs
      match r.name? with
      | some (.str n) =>
          let mf : Option String :=
            match r.meshFile? with
            | some (.str f) => some f
            | _ => none
          let base := Organ.new env n mf
          let pr? : Option OrganProps :=
            match r.props? with
            | none => some OrganProps.default
            | some (.obj po) =>
                match pyFloatD (po.find? "magnetic_susceptibility") 0,
                      pyFloatD (po.find? "permeability") 1,
                      pyFloatD (po.find? "permittivity") 1,
                      pyFloatD (po.find? "conductivity") 0,
                      pyFloatD (po.find? "elasticity") 0,
                      pyFloatD (po.find? "density") 1000 with
                | some a, some b, some c, some d, some e, some f =>
                    some ⟨a, b, c, d, e, f⟩
                | _, _, _, _, _, _ => none
            | some _ => none
          match pr? with
          | none => none
          | some pr =>
              match pyFloatD r.voxelRes? 1 with
              | none => none
              | some vr =>
                  match r.subs? with
                  | none =>
                      some (.mk n mf base.mesh vr pr none .nil)
                  | some none => none
                  | some (some subs) =>
                      some (.mk n mf base.mesh vr pr none subs)
      | _ => none
  | _ => none

/-- Scan of the record's entries for the five keys `from_dict` uses; the
leftmost occurrence of a key wins, and a `sub_organs` value is decoded on
the spot (keeping the whole decoder structurally recursive). -/
def JsonObj.scanFields (env : MeshEnv) : JsonObj → RawFields
  | .nil => ⟨none, none, none, none, none⟩
  | .cons k v rest =>
      let r := JsonObj.scanFields env rest
      if k = "name" then { r with name? := some v }
      else if k = "mesh_file" then { r with meshFile? := some v }
      else if k = "properties" then { r with props? := some v }
      else if k = "voxel_resolution" then { r with voxelRes? := some v }
      else if k = "sub_organs" then
        let d : Option OrganMap :=
          match v with
          | .obj so => OrganMap.fromSubs env so .nil
          | _ => none
        { r with subs? := some d }
      else r

/-- The `for sub_name, sub_data in data.get("sub_organs", {}).items()` loop
of `from_dict`: dict entries are decoded and added through
`add_sub_organ` (keyed by the decoded child's name); non-dict entries are
skipped with a warning; a decoding exception propagates (`none`). -/
def OrganMap.fromSubs (env : MeshEnv) : JsonObj → OrganMap → Option OrganMap
  | .nil, acc => some acc
  | .cons _ v rest, acc =>
      match v with
      | .obj o =>
          match Organ.from_dict env (.obj o) with
          | none => none
          | some c => OrganMap.fromSubs env rest (acc.insertKey c.name c)
      | _ => OrganMap.fromSubs env rest acc
end

/-! ### Serialization signature and well-formedness

The persisted record carries name, mesh-file reference, voxel resolution,
the six properties and the sub-organ structure — never mesh geometry or
voxel data.  `Organ.sig` projects exactly those fields.  `wfb` states that
a tree was built through `add_sub_organ`: every key equals its child's
name and keys are duplicate-free at each level. -/

inductive OrganSig where
  | mk (name : String) (mesh_file : Option String) (voxel_resolution : ℚ)
      (props : OrganProps) (subs : List (String × OrganSig)) : OrganSig

mutual
def Organ.sig : Organ → OrganSig
  | .mk n mf _ vr pr _ subs => .mk n mf vr pr subs.sigList

def OrganMap.sigList : OrganMap → List (String × OrganSig)
  | .nil => []
  | .cons k o rest => (k, o.sig) :: rest.sigList
end

mutual
def Organ.wfb : Organ → Bool
  | .mk _ _ _ _ _ _ subs => subs.wfbMap

def OrganMap.wfbMap : OrganMap → Bool
  | .nil => true
  | .cons k o rest =>
      (k = o.name : Bool) && !rest.hasKey k && o.wfb && rest.wfbMap
end

/-- `HumanBody` (`human_body.py` lines 236-245): a name-keyed organ
mapping; `add_organ` keys by the organ's name, last write wins. -/
structure HumanBody where
  organs : OrganMap

def HumanBody.add_organ (b : HumanBody) (o : Organ) : HumanBody :=
  ⟨b.organs.insertKey o.name o⟩

/-- Keys are duplicate-free and every stored organ is well-formed (the
body-level key need not equal the organ's name for the record to
round-trip, but bodies built through `add_organ` also satisfy that). -/
def HumanBody.wfb (b : HumanBody) : Bool :=
  go b.organs
where
  go : OrganMap → Bool
  | .nil => true
  | .cons k o rest => !rest.hasKey k && o.wfb && go rest

/-- `HumanBody.save_to_file` (lines 264-273): the JSON text written is
`json.dump` of `{name: organ.to_dict()}` in insertion order (write errors
only log; the content is what matters here). -/
def HumanBody.save_to_file (b : HumanBody) : Json :=
  .obj (go b.organs)
where
  go : OrganMap → JsonObj
  | .nil => .nil
  | .cons k o rest => .cons k o.to_dict (go rest)

/-- The organ-loading loop of `load_from_file` (lines 284-288): dict
values decode through `Organ.from_dict` and are stored under the file's
key; non-dict values are skipped with a warning; a decoding exception
propagates (`none`). -/
def loadOrgans (env : MeshEnv) : JsonObj → OrganMap → Option OrganMap
  | .nil, acc => some acc
  | .cons k v rest, acc =>
      match v with
      | .obj o =>
          match Organ.from_dict env (.obj o) with
          | none => none
          | some organ => loadOrgans env rest (acc.insertKey k organ)
      | _ => loadOrgans env rest acc

/-- `HumanBody.load_from_file` (lines 275-298).  The file argument models
the filesystem at the path: `none` = file missing, `some none` = contents
present but not parseable as JSON, `some (some j)` = parsed JSON `j`.
A missing file, a parse error, a non-dict top level (`data.items()`
raises) and any exception escaping the loop all leave `organs = {}`. -/
def HumanBody.load_from_file (file : Option (Option Json)) (env : MeshEnv) :
    HumanBody :=
  match file with
  | none => ⟨.nil⟩
  | some none => ⟨.nil⟩
  | some (some j) =>
      match j with
      | .obj kvs =>
          match loadOrgans env kvs .nil with
          | none => ⟨.nil⟩
          | some m => ⟨m⟩
      | _ => ⟨.nil⟩

/-! ### DICOM slice assembly (`utils/dicom_utils.py` lines 9-103)

A candidate `.dcm` file is modelled by whether `pydicom.dcmread` succeeds
(`readable`), whether the `ImagePositionPatient` and `PixelData` tags are
present, the `ImagePositionPatient` entries (an entry is `none` when its
value cannot be converted by `float()`), and the pixel array's in-plane
shape; `content` is an opaque identifier for the pixel payload (no claim
inspects pixel values).  The directory listing is the input list; the
function first sorts it by filename (`sorted(...)`), mirroring the
source.  A missing directory is not modelled (no claim concerns it). -/

structure DicomFile where
  name : String
  readable : Bool
  hasIPP : Bool
  hasPixelData : Bool
  ipp : List (Option ℚ)
  rows : Nat
  cols : Nat
  content : Nat
deriving DecidableEq, Repr

/-- The stacking-axis coordinate `float(ImagePositionPatient[2])`, after
the length-≥-3 and parseability checks have passed. -/
def zval (f : DicomFile) : ℚ :=
  ((f.ipp.get? 2).getD none).getD 0

/-- A file's third position entry is present but not parseable as a
number (so `float()` raises during the sort). -/
def zUnparseable (f : DicomFile) : Bool :=
  ((f.ipp.get? 2).getD none).isNone

/-- The assembled volume: `np.stack([...], axis=-1)` of the sorted pixel
arrays, so shape is (rows, cols, slice count) and slice `i` of the last
axis is the `i`-th sorted file's pixel array. -/
structure Volume where
  rows : Nat
  cols : Nat
  slices : List DicomFile
deriving DecidableEq, Repr

def Volume.shape (v : Volume) : Nat × Nat × Nat :=
  (v.rows, v.cols, v.slices.length)

/-- Lexicographic string comparison by Unicode code point, the order
Python's `sorted` applies to the filename list. -/
def strLe (a b : String) : Bool := go a.data b.data where
  go : List Char → List Char → Bool
  | [], _ => true
  | _ :: _, [] => false
  | a :: as, b :: bs =>
      if a.val < b.val then true else if b.val < a.val then false else go as bs

/-- Final stage of `load_dicom_volume`: sort the kept files by their
z-coordinate (Python's `list.sort` is stable; so is
`List.insertionSort`), verify a common in-plane shape against the first
sorted slice, then stack along the last axis. -/
def assembleSorted (valid : List DicomFile) : Option Volume :=
  match List.insertionSort (fun a b => zval a ≤ zval b) valid with
  | [] => none
  | first :: rest =>
      if rest.all (fun f => f.rows = first.rows && f.cols = first.cols)
      then some ⟨first.rows, first.cols, first :: rest⟩
      else none

/-- The name-sorted directory listing, `sorted(os.listdir(...))`. -/
def nameSorted (listing : List DicomFile) : List DicomFile :=
  List.insertionSort (fun a b => strLe a.name b.name = true) listing

/-- Files that `dcmread` accepts and that carry both required tags. -/
def candidateOk (f : DicomFile) : Bool :=
  f.readable && f.hasIPP && f.hasPixelData

/-- The position list is usable for sorting (`len >= 3`). -/
def posOk (f : DicomFile) : Bool :=
  3 ≤ f.ipp.length

/-- The files that survive both filters, in name order. -/
def keptFiles (listing : List DicomFile) : List DicomFile :=
  ((nameSorted listing).filter candidateOk).filter posOk

/-- `load_dicom_volume`: list and name-sort the candidates, keep files that
read and carry both required tags, keep those with a usable position list,
fail if any kept position is unparseable (the sort's `float()` raises),
then sort, check shapes, and stack. -/
def load_dicom_volume (listing : List DicomFile) : Option Volume :=
  if (nameSorted listing).isEmpty then none
  else if ((nameSorted listing).filter candidateOk).isEmpty then none
  else if (keptFiles listing).isEmpty then none
  else if (keptFiles listing).any zUnparseable then none
  else assembleSorted (keptFiles listing)

/-! ### Iso-surface extraction (`volume_to_mesh`, lines 105-159)

The scalar volume is a 3-D array; its cells are the flattened entries and
it is uniform when all cells carry one value.  `skimage.measure
.marching_cubes` is the environment: it may raise (`err`) or return
vertex/face/normal arrays.  Construction of the `trimesh.Trimesh` plus the
`remove_unreferenced_vertices` / `remove_degenerate_faces` cleanup is a
second environment function `build` (`none` models an exception). -/

structure ScalarVolume where
  data : List (List (List ℚ))
deriving DecidableEq, Repr

def ScalarVolume.cells (v : ScalarVolume) : List ℚ :=
  (v.data.map List.flatten).flatten

def ScalarVolume.uniform (v : ScalarVolume) : Prop :=
  ∀ x ∈ v.cells, ∀ y ∈ v.cells, x = y

inductive MCResult where
  | err : MCResult
  | ok (verts : List (ℚ × ℚ × ℚ)) (faces : List (Nat × Nat × Nat))
      (normals : List (ℚ × ℚ × ℚ)) : MCResult

def volume_to_mesh
    (marching : ScalarVolume → ℚ → ℚ × ℚ × ℚ → MCResult)
    (build : List (ℚ × ℚ × ℚ) → List (Nat × Nat × Nat) →
      List (ℚ × ℚ × ℚ) → Option Mesh)
    (volume : ScalarVolume) (threshold : ℚ) (spacing : ℚ × ℚ × ℚ) :
    Option Mesh :=
  match marching volume threshold spacing with
  | .err => none
  | .ok verts faces normals =>
      if verts.length = 0 ∨ faces.length = 0 then none
      else
        match build verts faces normals with
        | none => none
        | some m => if m.is_empty then none else some m

/-! ### Concrete instances

Closed inputs used to evaluate the embedded code: a trivial environment,
concrete library behaviours, and the scenario data of the specification. -/

/-- Trivial environment: no files exist, loads raise, processing fails. -/
def env0 : MeshEnv := ⟨fun _ => false, fun _ => .raises, fun _ => none⟩

/-- A decimation stub that always fails (vacuously within the library
contract). -/
def dec0 : Mesh → Int → Option Mesh := fun _ _ => none

/-- A decimation behaviour returning a mesh with one vertex and no faces —
a degenerate but non-`is_empty` trimesh result. -/
def decToZeroFaces : Mesh → Int → Option Mesh :=
  fun _ _ => some ⟨[(0, 0, 0)], []⟩

/-- A surface voxelizer stub that always fails. -/
def vox0 : Mesh → ℚ → Option VoxMatrix := fun _ _ => none

/-- A two-face triangle mesh (a square split along its diagonal). -/
def squareMesh : Mesh :=
  ⟨[(0, 0, 0), (1, 0, 0), (1, 1, 0), (0, 1, 0)], [(0, 1, 2), (0, 2, 3)]⟩

/-- An organ holding `squareMesh`, as `simplify_mesh` receives it. -/
def organSimp : Organ :=
  .mk "Liver" none (some squareMesh) 1 .default none .nil

/-- An organ with no mesh but a previously stored voxel grid. -/
def organC9 : Organ :=
  .mk "Lung" none none 1 .default (some [[[true]]]) .nil

/-- Scenario D: sub-organ "Ventricle" with density 1060. -/
def ventricleScenD : Organ :=
  .mk "Ventricle" none none 1
    { OrganProps.default with density := 1060 } none .nil

/-- Scenario D: organ "Heart" with conductivity 0.7 holding "Ventricle". -/
def heartScenD : Organ :=
  .mk "Heart" none none 1
    { OrganProps.default with conductivity := ⟨7, 10, by decide, by decide⟩ }
    none (.cons "Ventricle" ventricleScenD .nil)

/-- Scenario D body: the heart added through `add_organ`. -/
def bodyScenD : HumanBody := HumanBody.add_organ ⟨.nil⟩ heartScenD

/-- A well-formed organ record and a body record in which its sibling "B"
is a mapping missing the required "name" key. -/
def organAJson : Json :=
  (Organ.mk "A" none none 1 .default none .nil).to_dict

def c6BadBody : Json :=
  .obj (.cons "A" organAJson (.cons "B" (.obj .nil) .nil))

/-- The rationals 2.5 and 7.5 (given in lowest terms so that all kernel
evaluation stays structural). -/
def q52 : ℚ := ⟨5, 2, by decide, by decide⟩
def q152 : ℚ := ⟨15, 2, by decide, by decide⟩

/-- Scenario A slice files: stacking coordinates [10, 0, 5, 2.5, 7.5] in
file order, all valid, all 64×64. -/
def scenFile (nm : String) (z : ℚ) (payload : Nat) : DicomFile :=
  ⟨nm, true, true, true, [some 0, some 0, some z], 64, 64, payload⟩

def scenListing : List DicomFile :=
  [scenFile "s0.dcm" 10 0, scenFile "s1.dcm" 0 1, scenFile "s2.dcm" 5 2,
   scenFile "s3.dcm" q52 3, scenFile "s4.dcm" q152 4]

/-- The volume Scenario A must assemble: slices reordered by ascending
coordinate, shape (64, 64, 5). -/
def scenVolume : Volume :=
  ⟨64, 64,
   [scenFile "s1.dcm" 0 1, scenFile "s3.dcm" q52 3, scenFile "s2.dcm" 5 2,
    scenFile "s4.dcm" q152 4, scenFile "s0.dcm" 10 0]⟩

/-- Two valid same-shape slices sharing the stacking coordinate 0. -/
def dupA : DicomFile := ⟨"a.dcm", true, true, true, [some 0, some 0, some 0], 2, 2, 0⟩
def dupB : DicomFile := ⟨"b.dcm", true, true, true, [some 0, some 0, some 0], 2, 2, 1⟩

/-- A watertight unit cube: 8 vertices, 12 triangles. -/
def cubeMesh : Mesh :=
  ⟨[(0, 0, 0), (1, 0, 0), (1, 1, 0), (0, 1, 0),
    (0, 0, 1), (1, 0, 1), (1, 1, 1), (0, 1, 1)],
   [(0, 2, 1), (0, 3, 2), (4, 5, 6), (4, 6, 7),
    (0, 1, 5), (0, 5, 4), (1, 2, 6), (1, 6, 5),
    (2, 3, 7), (2, 7, 6), (3, 0, 4), (3, 4, 7)]⟩

/-- The 3×3×3 occupancy grid trimesh's surface voxelization produces for
the unit cube at pitch 1/2: every boundary cell is hit by the surface,
the single strictly interior cell is not. -/
def cubeShell : VoxMatrix :=
  [[[true, true, true], [true, true, true], [true, true, true]],
   [[true, true, true], [true, false, true], [true, true, true]],
   [[true, true, true], [true, true, true], [true, true, true]]]

/-- The trimesh surface voxelizer pinned at the cube input (the source
calls `mesh.voxelized(pitch).matrix` — surface rasterization only). -/
def cubeSurfaceVox : Mesh → ℚ → Option VoxMatrix := fun _ _ => some cubeShell

/-- Pitch 1/2 for the cube voxelization. -/
def qHalf : ℚ := ⟨1, 2, by decide, by decide⟩

/-- A 2×2×1 volume holding the single value 5 everywhere. -/
def uniformVol : ScalarVolume := ⟨[[[5, 5], [5, 5]]]⟩

/-- Marching cubes stub that raises (as skimage does when the level is
outside a degenerate data range). -/
def mc0 : ScalarVolume → ℚ → ℚ × ℚ × ℚ → MCResult := fun _ _ _ => .err

/-- Trimesh construction stub. -/
def build0 : List (ℚ × ℚ × ℚ) → List (Nat × Nat × Nat) →
    List (ℚ × ℚ × ℚ) → Option Mesh := fun v f _ => some ⟨v, f⟩

/-- The mesh-state invariant the source's guards maintain: the organ's
mesh is absent, or non-empty in trimesh's sense (`is_empty` is false,
i.e. it has at least one vertex or at least one face). -/
def meshInvOpt : Option Mesh → Prop
  | none => True
  | some m => m.is_empty = false

instance : IsTotal DicomFile (fun a b => zval a ≤ zval b) :=
  ⟨fun a b => le_total (zval a) (zval b)⟩

instance : IsTrans DicomFile (fun a b => zval a ≤ zval b) :=
  ⟨fun _ _ _ h1 h2 => le_trans h1 h2⟩

/-! ## Theorems -/

@[simp] theorem Organ.mesh_withMesh (o : Organ) (m : Option Mesh) :
    (o.withMesh m).mesh = m := by
  cases o; rfl

@[simp] theorem Organ.voxel_grid_withVoxelGrid (o : Organ) (g : Option VoxMatrix) :
    (o.withVoxelGrid g).voxel_grid = g := by
  cases o; rfl

@[simp] theorem Organ.faceCount_withMesh (o : Organ) (m : Mesh) :
    (o.withMesh (some m)).faceCount = m.faces.length := by
  cases o; rfl

/-- C5: loading a model record from a filename that does not exist, or from
a file whose contents are not parseable JSON, results in an empty
`HumanBody` (the organs mapping is empty); `load_from_file` is total, so no
exception escapes and the body is never left indeterminate. -/
theorem load_from_file_missing_or_invalid (env : MeshEnv) :
    (HumanBody.load_from_file none env).organs = .nil
    ∧ (HumanBody.load_from_file (some none) env).organs = .nil :=
  ⟨rfl, rfl⟩

/-- C4: a non-integer target (`none`) or a non-positive integer target
fails validation with result `false` and an untouched organ; and when the
decimation that a valid in-range target triggers yields an absent or empty
mesh, the call fails with the original organ retained — no partial commit
on any failure path. -/
theorem simplify_mesh_failure_paths :
    (∀ dec (o : Organ), Organ.simplify_mesh dec o none = (o, false))
    ∧ (∀ dec (o : Organ) (t : Int), t ≤ 0 →
        Organ.simplify_mesh dec o (some t) = (o, false))
    ∧ (∀ dec (o : Organ) (m : Mesh) (t : Int), o.mesh = some m →
        m.is_empty = false → 0 < t → t < (m.faces.length : Int) →
        (dec m t = none ∨ ∃ r, dec m t = some r ∧ r.is_empty = true) →
        Organ.simplify_mesh dec o (some t) = (o, false)) := by
  refine ⟨?_, ?_, ?_⟩
  · intro dec o
    unfold Organ.simplify_mesh
    cases h : o.mesh with
    | none => rfl
    | some m => by_cases he : m.is_empty = true <;> simp [he]
  · intro dec o t ht
    unfold Organ.simplify_mesh
    cases h : o.mesh with
    | none => rfl
    | some m =>
      by_cases he : m.is_empty = true <;> simp [he, ht]
  · intro dec o m t hm he ht hlt hdec
    unfold Organ.simplify_mesh
    rw [hm]
    have ht' : ¬ t ≤ 0 := by omega
    have hle : ¬ ((m.faces.length : Int) ≤ t) := by omega
    simp only [he, Bool.false_eq_true, if_false, ht', hle]
    rcases hdec with h | ⟨r, h, hre⟩
    · rw [h]
    · rw [h]; simp [hre]

/-- C3: for an organ holding a valid non-empty mesh and a positive integer
target, `simplify_mesh` never leaves the organ with more faces than before
(given the decimation library's contract that its result respects the
requested face budget), and a target at or above the current face count is
a no-op success returning the organ byte-for-byte unchanged. -/
theorem simplify_mesh_face_monotone (dec : Mesh → Int → Option Mesh)
    (hdec : ∀ m t r, dec m t = some r → (r.faces.length : Int) ≤ t)
    (o : Organ) (m : Mesh) (hm : o.mesh = some m) (hne : m.is_empty = false)
    (t : Int) (ht : 0 < t) :
    (Organ.simplify_mesh dec o (some t)).1.faceCount ≤ o.faceCount
    ∧ ((o.faceCount : Int) ≤ t → Organ.simplify_mesh dec o (some t) = (o, true)) := by
  have hfc : o.faceCount = m.faces.length := by
    unfold Organ.faceCount; rw [hm]
  have ht' : ¬ t ≤ 0 := by omega
  unfold Organ.simplify_mesh
  rw [hm]
  dsimp only
  rw [hne]
  rw [if_neg (by simp), if_neg ht']
  by_cases hle : (m.faces.length : Int) ≤ t
  · rw [if_pos hle]
    exact ⟨le_refl _, fun _ => rfl⟩
  · rw [if_neg hle]
    constructor
    · cases hd : dec m t with
      | none => exact le_refl _
      | some sm =>
        by_cases hse : sm.is_empty = true
        · simp [hse]
        · simp only [hse, Bool.false_eq_true, if_false]
          have h1 := hdec m t sm hd
          simp only [Organ.faceCount_withMesh, hfc]
          omega
    · intro habs
      rw [hfc] at habs
      exact absurd habs hle

/-- Witness for C3 at the square mesh: decimation budget below the two
current faces cannot increase the count, and a budget of 5 ≥ 2 is a no-op
success. -/
theorem simplify_mesh_face_monotone_witness :
    (Organ.simplify_mesh dec0 organSimp (some 1)).1.faceCount ≤ organSimp.faceCount
    ∧ Organ.simplify_mesh dec0 organSimp (some 5) = (organSimp, true) := by
  have hdec : ∀ m t r, dec0 m t = some r → (r.faces.length : Int) ≤ t := by
    intro m t r h
    simp [dec0] at h
  refine ⟨(simplify_mesh_face_monotone dec0 hdec organSimp squareMesh rfl rfl 1
    (by decide)).1, ?_⟩
  exact (simplify_mesh_face_monotone dec0 hdec organSimp squareMesh rfl rfl 5
    (by decide)).2 (by decide)

/-- Witness for C4: a non-integer target, the target 0, and a decimation
step that returns an absent mesh all fail with the organ untouched. -/
theorem simplify_mesh_failure_paths_witness :
    Organ.simplify_mesh dec0 organSimp none = (organSimp, false)
    ∧ Organ.simplify_mesh dec0 organSimp (some 0) = (organSimp, false)
    ∧ Organ.simplify_mesh dec0 organSimp (some 1) = (organSimp, false) :=
  ⟨simplify_mesh_failure_paths.1 dec0 organSimp,
   simplify_mesh_failure_paths.2.1 dec0 organSimp 0 (by decide),
   simplify_mesh_failure_paths.2.2 dec0 organSimp squareMesh 1 rfl rfl
     (by decide) (by decide) (Or.inl rfl)⟩

/-- C9 (amended): calling `Organ.voxelize_mesh` on an organ with no mesh
emits a diagnostic and sets `voxel_grid` to `None`, leaving every other
field unchanged — it does NOT preserve a previously stored voxel grid. -/
theorem voxelize_mesh_absent_clears_grid (vox : Mesh → ℚ → Option VoxMatrix)
    (o : Organ) (h : o.mesh = none) :
    o.voxelize_mesh vox = o.withVoxelGrid none := by
  unfold Organ.voxelize_mesh
  rw [h]

/-- Witness for C9 at a concrete organ with a stored grid. -/
theorem voxelize_mesh_absent_clears_grid_witness :
    organC9.voxelize_mesh vox0 = organC9.withVoxelGrid none :=
  voxelize_mesh_absent_clears_grid vox0 organC9 rfl

/-- C9 counterexample: the organ `organC9` has no mesh and a stored voxel
grid; after `voxelize_mesh` the stored grid is gone, so the call is not a
frame-preserving no-op as claimed. -/
theorem voxelize_mesh_absent_not_noop :
    organC9.voxel_grid = some [[[true]]]
    ∧ (organC9.voxelize_mesh vox0).voxel_grid = none :=
  ⟨rfl, rfl⟩

/-- C7: evaluating `voxelize_mesh` (the `mesh_utils` function) at a
watertight unit cube with pitch 1/2, with the trimesh surface voxelizer
producing the 3×3×3 shell grid, returns that shell unchanged: the source
never calls `.fill()` (its own tests assert one `fill()` call) and the
strictly interior cell stays `false` — a hollow shell, not a solid. -/
theorem voxelize_mesh_no_interior_fill :
    MeshUtils.voxelize_mesh cubeSurfaceVox (some cubeMesh) qHalf = some cubeShell
    ∧ ((cubeShell.getD 1 []).getD 1 []).getD 1 true = false := by
  constructor
  · rfl
  · rfl

/-- C8: on a uniform (constant-value) volume, for every threshold and
spacing, surface extraction returns `none` (no surface) rather than
raising, and never a non-empty degenerate mesh — given marching cubes'
contract that a field with no threshold crossing either raises or yields
an empty vertex/face set. -/
theorem extract_surface_uniform_none
    (marching : ScalarVolume → ℚ → ℚ × ℚ × ℚ → MCResult)
    (build : List (ℚ × ℚ × ℚ) → List (Nat × Nat × Nat) →
      List (ℚ × ℚ × ℚ) → Option Mesh)
    (vol : ScalarVolume) (huni : vol.uniform)
    (hmc : ∀ th sp, vol.uniform →
      marching vol th sp = .err ∨
      ∃ v f n, marching vol th sp = .ok v f n ∧ (v.length = 0 ∨ f.length = 0)) :
    ∀ th sp, volume_to_mesh marching build vol th sp = none := by
  intro th sp
  unfold volume_to_mesh
  rcases hmc th sp huni with h | ⟨v, f, n, h, hvf⟩
  · rw [h]
  · rw [h]
    dsimp only
    rw [if_pos hvf]

/-- Witness for C8 at a constant 2×2×1 volume and a marching-cubes
behaviour that raises. -/
theorem extract_surface_uniform_none_witness :
    volume_to_mesh mc0 build0 uniformVol 150 (1, 1, 1) = none :=
  extract_surface_uniform_none mc0 build0 uniformVol
    (by unfold ScalarVolume.uniform; decide)
    (fun _ _ _ => Or.inl rfl) 150 (1, 1, 1)

/-- `load_mesh` factored: it always records the new path, drops the
previous mesh, and ends with a mesh that depends only on the environment
and the path. -/
theorem load_mesh_spec (env : MeshEnv) (o : Organ) (f : String) :
    o.load_mesh env f = (o.withMeshFile (some f)).withMesh (loadOutcome env f) := by
  obtain ⟨n, mf, m, vr, pr, vg, s⟩ := o
  unfold Organ.load_mesh loadOutcome
  by_cases hf : env.isFile f
  · simp only [hf, not_true_eq_false, if_false]
    cases hl : env.load f with
    | raises => rfl
    | notMeshNotScene => rfl
    | mesh c =>
        show Organ.loadTail env _ c = _
        unfold Organ.loadTail loadOutcome.loadOutcomeTail
        by_cases hce : c.is_empty = true
        · simp [hce, Organ.withMesh, Organ.withMeshFile]
        · simp only [hce, Bool.false_eq_true, if_false]
          cases hp : env.process c with
          | none => rfl
          | some p =>
              by_cases hpe : p.is_empty = true
              · simp [hpe, Organ.withMesh, Organ.withMeshFile]
              · simp [hpe, Organ.withMesh, Organ.withMeshFile]
    | scene hasGeom d =>
        by_cases hg : hasGeom
        · simp only [hg, not_true_eq_false, if_false]
          cases d with
          | raises => rfl
          | notTrimesh => rfl
          | mesh c =>
              show Organ.loadTail env _ c = _
              unfold Organ.loadTail loadOutcome.loadOutcomeTail
              by_cases hce : c.is_empty = true
              · simp [hce, Organ.withMesh, Organ.withMeshFile]
              · simp only [hce, Bool.false_eq_true, if_false]
                cases hp : env.process c with
                | none => rfl
                | some p =>
                    by_cases hpe : p.is_empty = true
                    · simp [hpe, Organ.withMesh, Organ.withMeshFile]
                    · simp [hpe, Organ.withMesh, Organ.withMeshFile]
        · simp only [hg]
          rfl
  · simp [hf, Organ.withMesh, Organ.withMeshFile]

/-- Whatever mesh `load_mesh` commits passed the non-emptiness guard. -/
theorem loadOutcome_inv (env : MeshEnv) (f : String) :
    meshInvOpt (loadOutcome env f) := by
  have htail : ∀ c, meshInvOpt (loadOutcome.loadOutcomeTail env c) := by
    intro c
    unfold loadOutcome.loadOutcomeTail
    by_cases hce : c.is_empty = true
    · simp [hce, meshInvOpt]
    · simp only [hce, Bool.false_eq_true, if_false]
      cases hp : env.process c with
      | none => exact trivial
      | some p =>
          by_cases hpe : p.is_empty = true
          · simp [hpe, meshInvOpt]
          · simp only [hpe, Bool.false_eq_true, if_false]
            simpa [meshInvOpt] using Bool.not_eq_true p.is_empty ▸ hpe
  unfold loadOutcome
  by_cases hf : env.isFile f
  · simp only [hf, not_true_eq_false, if_false]
    cases env.load f with
    | raises => exact trivial
    | notMeshNotScene => exact trivial
    | mesh c => exact htail c
    | scene hasGeom d =>
        by_cases hg : hasGeom
        · simp only [hg, not_true_eq_false, if_false]
          cases d with
          | raises => exact trivial
          | notTrimesh => exact trivial
          | mesh c => exact htail c
        · simp only [hg]
          exact trivial
  · simp only [hf, not_false_eq_true, if_true]
    exact trivial

/-- C10 (amended): after construction, `load_mesh`, or `simplify_mesh`,
the organ's mesh is either absent or non-empty in trimesh's sense (the
`is_empty` guard the code enforces — which does not rule out a mesh with
vertices but zero faces); and `load_mesh` unconditionally records the new
path and drops the previous mesh, its final mesh depending only on the
environment and the path, so after any failed load the mesh is `None`
while `mesh_file` holds the new path. -/
theorem organ_mesh_state_machine :
    (∀ env n mf, meshInvOpt (Organ.new env n mf).mesh)
    ∧ (∀ env (o : Organ) f,
        o.load_mesh env f = (o.withMeshFile (some f)).withMesh (loadOutcome env f))
    ∧ (∀ env f, meshInvOpt (loadOutcome env f))
    ∧ (∀ dec (o : Organ) t, meshInvOpt o.mesh →
        meshInvOpt (Organ.simplify_mesh dec o t).1.mesh) := by
  refine ⟨?_, load_mesh_spec, loadOutcome_inv, ?_⟩
  · intro env n mf
    unfold Organ.new
    cases mf with
    | none => exact trivial
    | some f =>
        by_cases hfe : f = ""
        · simp only [hfe, if_pos rfl]
          exact trivial
        · simp only [hfe, if_false]
          rw [load_mesh_spec]
          rw [Organ.mesh_withMesh]
          exact loadOutcome_inv env f
  · intro dec o t hinv
    unfold Organ.simplify_mesh
    cases hm : o.mesh with
    | none => simpa [hm] using hinv
    | some m =>
        by_cases hme : m.is_empty = true
        · simp only [hme, if_true]
          simpa [hm] using hinv
        · simp only [hme, Bool.false_eq_true, if_false]
          cases t with
          | none => simpa [hm] using hinv
          | some tv =>
              by_cases ht : tv ≤ 0
              · simp only [if_pos ht]
                simpa [hm] using hinv
              · simp only [if_neg ht]
                by_cases hle : (m.faces.length : Int) ≤ tv
                · simp only [if_pos hle]
                  simpa [hm] using hinv
                · simp only [if_neg hle]
                  cases hd : dec m tv with
                  | none => simpa [hm] using hinv
                  | some sm =>
                      by_cases hse : sm.is_empty = true
                      · simp only [hse, if_true]
                        simpa [hm] using hinv
                      · simp only [hse, Bool.false_eq_true, if_false]
                        simp only [Organ.mesh_withMesh, meshInvOpt]
                        exact Bool.not_eq_true sm.is_empty ▸ hse

/-- Witness for C10: preserving the invariant through a failing
simplification of the square-mesh organ. -/
theorem organ_mesh_state_machine_witness :
    meshInvOpt (Organ.simplify_mesh dec0 organSimp (some 1)).1.mesh :=
  organ_mesh_state_machine.2.2.2 dec0 organSimp (some 1) rfl

/-- C10 counterexample: a decimation behaviour returning a one-vertex
zero-face mesh (not empty for trimesh) passes the guard, `simplify_mesh`
reports success and the organ is left holding a mesh with zero faces —
refuting "a zero-face mesh is never observable as the organ's mesh". -/
theorem simplify_mesh_commits_zero_face_mesh :
    (Organ.simplify_mesh decToZeroFaces organSimp (some 1)).1.mesh
      = some ⟨[(0, 0, 0)], []⟩
    ∧ (Organ.simplify_mesh decToZeroFaces organSimp (some 1)).2 = true :=
  ⟨rfl, rfl⟩

/-- A successfully assembled volume's slices are exactly the z-sorted kept
files. -/
theorem assembleSorted_slices (valid : List DicomFile) (v : Volume)
    (h : assembleSorted valid = some v) :
    v.slices = List.insertionSort (fun a b => zval a ≤ zval b) valid := by
  unfold assembleSorted at h
  cases hs : List.insertionSort (fun a b => zval a ≤ zval b) valid with
  | nil => rw [hs] at h; exact absurd h (by simp)
  | cons first rest =>
      rw [hs] at h
      dsimp only at h
      split_ifs at h with hall
      cases h
      rfl

/-- Any volume `load_dicom_volume` returns was assembled from the kept
files. -/
theorem load_dicom_volume_slices (files : List DicomFile) (v : Volume)
    (h : load_dicom_volume files = some v) :
    v.slices = List.insertionSort (fun a b => zval a ≤ zval b) (keptFiles files) := by
  unfold load_dicom_volume at h
  split_ifs at h
  exact assembleSorted_slices _ _ h

/-- C2 (amended): every volume assembled by `load_dicom_volume` has its
slice axis ordered by nondecreasing stacking coordinate, regardless of
input file order (Python's sort is stable, so equal coordinates keep file
order); when the coordinates are pairwise distinct the order is strictly
ascending.  The claim's unconditional "strictly ascending" fails only for
slice sets with repeated coordinates. -/
theorem volume_slices_sorted (files : List DicomFile) (v : Volume)
    (h : load_dicom_volume files = some v) :
    v.slices.Pairwise (fun a b => zval a ≤ zval b)
    ∧ (v.slices.Pairwise (fun a b => zval a ≠ zval b) →
        v.slices.Pairwise (fun a b => zval a < zval b)) := by
  have hl := load_dicom_volume_slices files v h
  have hs : v.slices.Pairwise (fun a b => zval a ≤ zval b) := by
    rw [hl]
    exact List.sorted_insertionSort _ _
  refine ⟨hs, fun hne => ?_⟩
  exact (hs.and hne).imp fun hab => lt_of_le_of_ne hab.1 hab.2

/-- Witness for C2: Scenario A — coordinates [10, 0, 5, 2.5, 7.5] in file
order, identical 64×64 shape, assemble into a (64, 64, 5) volume whose
slice 0 has coordinate 0 and whose slice axis is sorted. -/
theorem volume_slices_sorted_witness :
    load_dicom_volume scenListing = some scenVolume
    ∧ scenVolume.shape = (64, 64, 5)
    ∧ scenVolume.slices.head?.map zval = some 0
    ∧ scenVolume.slices.Pairwise (fun a b => zval a ≤ zval b) := by
  refine ⟨rfl, rfl, rfl, ?_⟩
  exact (volume_slices_sorted scenListing scenVolume rfl).1

/-- C2 counterexample: two valid same-shape slices that share the stacking
coordinate 0 assemble successfully, but the assembled slice axis is not
strictly ascending. -/
theorem volume_slices_not_strictly_sorted :
    load_dicom_volume [dupA, dupB] = some ⟨2, 2, [dupA, dupB]⟩
    ∧ ¬ ([dupA, dupB] : List DicomFile).Pairwise (fun a b => zval a < zval b) := by
  constructor
  · rfl
  · intro hp
    have hlt := (List.pairwise_cons.mp hp).1 dupB (by simp)
    exact absurd hlt (by decide)


/-- Key membership after a Python dict assignment. -/
theorem OrganMap.hasKey_insertKey (k k' : String) (o : Organ) :
    ∀ acc : OrganMap,
      ((acc.insertKey k o).hasKey k' = true ↔ (acc.hasKey k' = true ∨ k = k'))
  | .nil => by
      simp [OrganMap.insertKey, OrganMap.hasKey]
  | .cons key v rest => by
      by_cases hk : key = k
      · subst hk
        simp only [OrganMap.insertKey, if_pos rfl, OrganMap.hasKey,
          Bool.or_eq_true, decide_eq_true_eq]
        tauto
      · simp only [OrganMap.insertKey, if_neg hk, OrganMap.hasKey,
          Bool.or_eq_true, decide_eq_true_eq,
          OrganMap.hasKey_insertKey k k' o rest]
        tauto

/-- A fresh Python dict assignment appends the new entry at the end. -/
theorem OrganMap.sigList_insertKey_fresh (k : String) (o : Organ) :
    ∀ acc : OrganMap, acc.hasKey k = false →
      (acc.insertKey k o).sigList = acc.sigList ++ [(k, o.sig)]
  | .nil, _ => rfl
  | .cons key v rest, h => by
      have h' : ¬ (key = k) ∧ rest.hasKey k = false := by
        simpa [OrganMap.hasKey] using h
      simp only [OrganMap.insertKey, if_neg h'.1, OrganMap.sigList,
        OrganMap.sigList_insertKey_fresh k o rest h'.2, List.cons_append]

/-- Equal signatures have equal names. -/
theorem Organ.name_eq_of_sig_eq {a b : Organ} (h : a.sig = b.sig) :
    a.name = b.name := by
  cases a with
  | mk n1 mf1 m1 vr1 pr1 vg1 s1 =>
      cases b with
      | mk n2 mf2 m2 vr2 pr2 vg2 s2 =>
          simp only [Organ.sig, OrganSig.mk.injEq] at h
          simpa [Organ.name] using h.1

/-- Every serialized organ is a JSON mapping. -/
theorem Organ.toDict_isObj (o : Organ) : ∃ kvs, o.to_dict = .obj kvs := by
  cases o with
  | mk n mf m vr pr vg s =>
      refine ⟨.cons "name" (.str n)
        (.cons "mesh_file" (optStrJson mf)
          (.cons "voxel_resolution" (.num vr)
            (.cons "properties" (propsJson pr)
              (.cons "sub_organs" (.obj (OrganMap.to_dicts s)) .nil)))), ?_⟩
      simp [Organ.to_dict]

/-- Evaluation of `from_dict` on a record of exactly the shape `to_dict`
emits: the scalar fields decode to themselves and the result hinges only
on the sub-organ loop. -/
theorem fromDict_eval (env : MeshEnv) (n : String) (mf : Option String)
    (vr : ℚ) (pr : OrganProps) (subsJson : JsonObj) :
    Organ.from_dict env
      (.obj (.cons "name" (.str n)
        (.cons "mesh_file" (optStrJson mf)
          (.cons "voxel_resolution" (.num vr)
            (.cons "properties" (propsJson pr)
              (.cons "sub_organs" (.obj subsJson) .nil))))))
    = match OrganMap.fromSubs env subsJson .nil with
      | none => none
      | some m => some (.mk n mf (Organ.new env n mf).mesh vr pr none m) := by
  cases hfs : OrganMap.fromSubs env subsJson .nil with
  | none =>
      cases mf <;>
        simp [Organ.from_dict, JsonObj.scanFields, optStrJson, propsJson,
          pyFloatD, pyFloat, JsonObj.find?, hfs]
  | some m =>
      cases mf <;>
        simp [Organ.from_dict, JsonObj.scanFields, optStrJson, propsJson,
          pyFloatD, pyFloat, JsonObj.find?, hfs]

/-- `fromSubs` on a record entry whose value is a decodable mapping steps
to the remaining entries with the decoded child added. -/
theorem fromSubs_cons_obj (env : MeshEnv) (k : String) (c : Organ)
    (c₂ : Organ) (hc₂ : Organ.from_dict env c.to_dict = some c₂)
    (rest : JsonObj) (acc : OrganMap) :
    OrganMap.fromSubs env (.cons k c.to_dict rest) acc
      = OrganMap.fromSubs env rest (acc.insertKey c₂.name c₂) := by
  obtain ⟨kvs, hkvs⟩ := Organ.toDict_isObj c
  rw [hkvs] at hc₂ ⊢
  simp [OrganMap.fromSubs, hc₂]

mutual
/-- Round trip of one organ: decoding its record succeeds and reproduces
its serialization signature. -/
theorem fromDict_toDict_sig (env : MeshEnv) (o : Organ) (h : o.wfb = true) :
    ∃ o₂, Organ.from_dict env o.to_dict = some o₂ ∧ o₂.sig = o.sig := by
  match o with
  | .mk n mf msh vr pr vg subs =>
    have hsubs : subs.wfbMap = true := by simpa [Organ.wfb] using h
    obtain ⟨m, hm, hmsig⟩ :=
      fromSubs_toDicts_sigList env subs hsubs .nil (fun k _ => rfl)
    refine ⟨.mk n mf (Organ.new env n mf).mesh vr pr none m, ?_, ?_⟩
    · have hout := fromDict_eval env n mf vr pr (OrganMap.to_dicts subs)
      rw [hm] at hout
      simpa [Organ.to_dict] using hout
    · have hms : m.sigList = subs.sigList := by simpa using hmsig
      simp [Organ.sig, hms]

/-- Round trip of the sub-organ loop: every entry of a well-formed map
decodes and is re-added in order after the accumulator. -/
theorem fromSubs_toDicts_sigList (env : MeshEnv) (s : OrganMap)
    (h : s.wfbMap = true) (acc : OrganMap)
    (hd : ∀ k, s.hasKey k = true → acc.hasKey k = false) :
    ∃ m, OrganMap.fromSubs env (OrganMap.to_dicts s) acc = some m
      ∧ m.sigList = acc.sigList ++ s.sigList := by
  match s with
  | .nil =>
      exact ⟨acc, rfl, by simp [OrganMap.sigList, OrganMap.to_dicts]⟩
  | .cons k c rest =>
    have h' := h
    simp only [OrganMap.wfbMap, Bool.and_eq_true, decide_eq_true_eq,
      Bool.not_eq_true'] at h'
    obtain ⟨⟨⟨hk, hfresh⟩, hcwf⟩, hrest⟩ := h'
    obtain ⟨c₂, hc₂, hcsig⟩ := fromDict_toDict_sig env c hcwf
    have hc₂name : c₂.name = c.name := Organ.name_eq_of_sig_eq hcsig
    have hacck : acc.hasKey k = false := hd k (by simp [OrganMap.hasKey])
    have hd' : ∀ k', rest.hasKey k' = true →
        (acc.insertKey c₂.name c₂).hasKey k' = false := by
      intro k' hk'
      have h1 : acc.hasKey k' = false :=
        hd k' (by simp [OrganMap.hasKey, hk'])
      have h2 : ¬ (k = k') := by
        intro he
        rw [he, hk'] at hfresh
        cases hfresh
      by_contra hcon
      rw [Bool.not_eq_false] at hcon
      rcases (OrganMap.hasKey_insertKey c₂.name k' c₂ acc).mp hcon with h3 | h3
      · rw [h1] at h3; cases h3
      · exact h2 (by rw [hk, ← hc₂name, h3])
    obtain ⟨m, hm, hmsig⟩ :=
      fromSubs_toDicts_sigList env rest hrest (acc.insertKey c₂.name c₂) hd'
    refine ⟨m, ?_, ?_⟩
    · show OrganMap.fromSubs env (OrganMap.to_dicts (.cons k c rest)) acc = some m
      have hstep := fromSubs_cons_obj env k c c₂ hc₂ (OrganMap.to_dicts rest) acc
      simp only [OrganMap.to_dicts]
      rw [hstep]
      exact hm
    · have hfr : acc.hasKey c₂.name = false := by
        rw [hc₂name, ← hk]
        exact hacck
      rw [hmsig, OrganMap.sigList_insertKey_fresh c₂.name c₂ acc hfr]
      simp [OrganMap.sigList, hc₂name, hk, hcsig, List.append_assoc]
end

/-- Round trip of the body-level organ loop of `load_from_file` over the
record `save_to_file` writes: every entry decodes and is stored under its
file key, in order. -/
theorem loadOrgans_save_sigList (env : MeshEnv) :
    ∀ s : OrganMap, HumanBody.wfb.go s = true →
    ∀ acc : OrganMap, (∀ k, s.hasKey k = true → acc.hasKey k = false) →
    ∃ m, loadOrgans env (HumanBody.save_to_file.go s) acc = some m
      ∧ m.sigList = acc.sigList ++ s.sigList
  | .nil, _, acc, _ =>
      ⟨acc, rfl, by simp [OrganMap.sigList, HumanBody.save_to_file]⟩
  | .cons k c rest, h, acc, hd => by
    have h' := h
    simp only [HumanBody.wfb.go, Bool.and_eq_true, Bool.not_eq_true'] at h'
    obtain ⟨⟨hfresh, hcwf⟩, hrest⟩ := h'
    obtain ⟨c₂, hc₂, hcsig⟩ := fromDict_toDict_sig env c hcwf
    have hacck : acc.hasKey k = false := hd k (by simp [OrganMap.hasKey])
    have hd' : ∀ k', rest.hasKey k' = true →
        (acc.insertKey k c₂).hasKey k' = false := by
      intro k' hk'
      have h1 : acc.hasKey k' = false :=
        hd k' (by simp [OrganMap.hasKey, hk'])
      have h2 : ¬ (k = k') := by
        intro he
        rw [he, hk'] at hfresh
        cases hfresh
      by_contra hcon
      rw [Bool.not_eq_false] at hcon
      rcases (OrganMap.hasKey_insertKey k k' c₂ acc).mp hcon with h3 | h3
      · rw [h1] at h3; cases h3
      · exact h2 h3
    obtain ⟨m, hm, hmsig⟩ :=
      loadOrgans_save_sigList env rest hrest (acc.insertKey k c₂) hd'
    refine ⟨m, ?_, ?_⟩
    · obtain ⟨kvs, hkvs⟩ := Organ.toDict_isObj c
      show loadOrgans env (.cons k c.to_dict (HumanBody.save_to_file.go rest)) acc
        = some m
      rw [hkvs] at hc₂ ⊢
      simp only [loadOrgans, hc₂]
      exact hm
    · rw [hmsig, OrganMap.sigList_insertKey_fresh k c₂ acc hacck]
      simp [OrganMap.sigList, hcsig, List.append_assoc]

/-- C1: encode/decode round trip.  For every well-formed organ tree
(`wfb`: sub-organ keys are the children's names, duplicate-free),
`Organ.from_dict` of `Organ.to_dict` succeeds and reproduces the organ's
name, mesh-file reference, voxel resolution, all six physical properties
and the full recursive sub-organ name/child structure (its serialization
signature `sig`); and `HumanBody.load_from_file` of `save_to_file` output
reproduces the organ mapping's full signature, keys included. -/
theorem serialization_roundtrip (env : MeshEnv) :
    (∀ o : Organ, o.wfb = true →
      ∃ o₂, Organ.from_dict env o.to_dict = some o₂ ∧ o₂.sig = o.sig)
    ∧ (∀ b : HumanBody, b.wfb = true →
      (HumanBody.load_from_file (some (some b.save_to_file)) env).organs.sigList
        = b.organs.sigList) := by
  constructor
  · exact fun o h => fromDict_toDict_sig env o h
  · intro b hb
    obtain ⟨m, hm, hsig⟩ :=
      loadOrgans_save_sigList env b.organs hb .nil (fun k _ => rfl)
    show (HumanBody.load_from_file
      (some (some (.obj (HumanBody.save_to_file.go b.organs)))) env).organs.sigList
      = b.organs.sigList
    simp only [HumanBody.load_from_file, hm]
    simpa using hsig

/-- Witness for C1: Scenario D — "Heart" with conductivity 0.7 holding
"Ventricle" with density 1060 round-trips at the organ level and through
a body save/load. -/
theorem serialization_roundtrip_witness :
    (∃ o₂, Organ.from_dict env0 heartScenD.to_dict = some o₂
        ∧ o₂.sig = heartScenD.sig)
    ∧ OrganMap.sigList
        (HumanBody.load_from_file (some (some bodyScenD.save_to_file)) env0).organs
        = bodyScenD.organs.sigList :=
  ⟨(serialization_roundtrip env0).1 heartScenD rfl,
   (serialization_roundtrip env0).2 bodyScenD rfl⟩

/-- The field scan reads the first "name" entry, exactly as `data["name"]`
does. -/
theorem scanFields_name_eq_find (env : MeshEnv) :
    ∀ kvs : JsonObj, (JsonObj.scanFields env kvs).name? = kvs.find? "name"
  | .nil => rfl
  | .cons k v rest => by
      have ih := scanFields_name_eq_find env rest
      rw [JsonObj.scanFields.eq_def]
      dsimp only
      split_ifs with h1 h2 h3 h4 h5
      · simp [JsonObj.find?, h1]
      · simp [JsonObj.find?, h1, ih]
      · simp [JsonObj.find?, h1, ih]
      · simp [JsonObj.find?, h1, ih]
      · simp [JsonObj.find?, h1, ih]
      · simp [JsonObj.find?, h1, ih]
termination_by kvs => sizeOf kvs

/-- C6 (amended): during decoding, the only structural validation of a
record is the `isinstance(..., dict)` check.  A record value that is not
a mapping is skipped with a diagnostic while the loop continues with its
siblings (both for sub-organs and for body-level organs); a record that IS
a mapping but fails to decode — for instance one missing the "name" key,
whose `data["name"]` raises `KeyError` — aborts the entire
`load_from_file`, which ends with an empty body, discarding siblings that
had already decoded. -/
theorem decode_malformed_policy :
    (∀ env k (junk : Json) rest acc, junk.isObj = false →
        OrganMap.fromSubs env (.cons k junk rest) acc
          = OrganMap.fromSubs env rest acc
        ∧ loadOrgans env (.cons k junk rest) acc = loadOrgans env rest acc)
    ∧ (∀ env (kvs : JsonObj), kvs.find? "name" = none →
        Organ.from_dict env (.obj kvs) = none)
    ∧ (∀ env k (bad : Json) rest, bad.isObj = true →
        Organ.from_dict env bad = none →
        HumanBody.load_from_file (some (some (.obj (.cons k bad rest)))) env
          = ⟨.nil⟩) := by
  refine ⟨?_, ?_, ?_⟩
  · intro env k junk rest acc hj
    constructor
    · cases junk <;> simp [OrganMap.fromSubs] <;> simp [Json.isObj] at hj
    · cases junk <;> simp [loadOrgans] <;> simp [Json.isObj] at hj
  · intro env kvs h
    have hn : (JsonObj.scanFields env kvs).name? = none :=
      (scanFields_name_eq_find env kvs).trans h
    simp [Organ.from_dict, hn]
  · intro env k bad rest hobj hfd
    cases bad <;> simp [Json.isObj] at hobj
    simp [HumanBody.load_from_file, loadOrgans, hfd]

/-- Witness for C6: a numeric sub-record is skipped, an empty mapping has
no "name" and fails to decode, and a body whose sole record is such a
mapping loads as the empty body. -/
theorem decode_malformed_policy_witness :
    OrganMap.fromSubs env0 (.cons "X" (.num 3) .nil) .nil
        = OrganMap.fromSubs env0 .nil .nil
    ∧ Organ.from_dict env0 (.obj .nil) = none
    ∧ HumanBody.load_from_file (some (some (.obj (.cons "B" (.obj .nil) .nil)))) env0
        = ⟨.nil⟩ :=
  ⟨(decode_malformed_policy.1 env0 "X" (.num 3) .nil .nil rfl).1,
   decode_malformed_policy.2.1 env0 .nil rfl,
   decode_malformed_policy.2.2 env0 "B" (.obj .nil) .nil rfl rfl⟩

/-- C6 counterexample: the record `c6BadBody` holds the decodable organ
"A" and a sibling "B" that is a mapping without "name"; the claim says
"B" is skipped and "A" still decoded, but the load ends with an empty
organ mapping — sibling "A" is lost. -/
theorem malformed_subrecord_aborts_load :
    (Organ.from_dict env0 organAJson).isSome = true
    ∧ (HumanBody.load_from_file (some (some c6BadBody)) env0).organs = .nil :=
  ⟨rfl, rfl⟩
